import Mathlib

/-
Verification of the kana.parser stage validators (inputs, pca,
combine_embeddings, custom_selections) against their specification.

The HDF5 container is shallowly embedded as a tree of named nodes; the
storage accessor functions from utils.hpp (which are external to the
validator sources, per section 6 of the specification) are modelled from
the accessor contract given there.  Fallible validator code is embedded
in the Except monad; unsigned 64-bit quantities (hsize_t) are Nat values
reduced modulo 2 ^ 64 at each operation where the C++ code can overflow.
-/

namespace kanaval

/-- Primitive HDF5 value types, per the spec data model. -/
inductive H5Type where
  | Integer
  | Float
  | Str
deriving DecidableEq

/-- A named entry in the container: a group of named children, or a typed
dataset.  Integer and string datasets carry their values (scalar, or a
one-dimensional vector); float dataset payloads are never inspected by the
validators, so only the shape is kept.  A scalar dataset has shape []. -/
inductive Node where
  | group (children : List (String × Node))
  | intScalar (v : Int)
  | intVec (vs : List Int)
  | strScalar (s : String)
  | strVec (ss : List String)
  | floatData (shape : List Nat)

/-- Lookup of a named child in a list of children (first match wins). -/
def findChild : List (String × Node) → String → Option Node
  | [], _ => none
  | (k, v) :: rest, name => if k = name then some v else findChild rest name

/-- Lookup of a named child of a node; non-groups have no children. -/
def Node.find : Node → String → Option Node
  | .group cs, name => findChild cs name
  | _, _ => none

/-- Names of the children of a group, in enumeration order
(getObjnameByIdx in the C++ sources). -/
def Node.childNames : Node → List String
  | .group cs => cs.map Prod.fst
  | _ => []

/-- Number of children of a group (getNumObjs in the C++ sources). -/
def Node.numObjs : Node → Nat
  | .group cs => cs.length
  | _ => 0

/-- Primitive type of a dataset node. -/
def Node.htype : Node → Option H5Type
  | .intScalar _ => some .Integer
  | .intVec _ => some .Integer
  | .strScalar _ => some .Str
  | .strVec _ => some .Str
  | .floatData _ => some .Float
  | .group _ => none

/-- Shape of a dataset node ([] for scalars). -/
def Node.dshape : Node → Option (List Nat)
  | .intScalar _ => some []
  | .intVec vs => some [vs.length]
  | .strScalar _ => some []
  | .strVec ss => some [ss.length]
  | .floatData sh => some sh
  | .group _ => none

/-- Modelled from the spec: error context chain, wrap(inner, context);
combine_errors in utils.hpp, which is outside the provided sources. -/
def combine_errors (e msg : String) : String := msg ++ ": " ++ e

/-- Wrap any error surfacing from a sub-computation with the description
of the enclosing scope (the try/catch re-raise pattern of the sources). -/
def wrapE {α : Type} (msg : String) (x : Except String α) : Except String α :=
  match x with
  | .ok a => .ok a
  | .error e => .error (combine_errors e msg)

/-- Modelled from the spec: accessor open_group (check_and_open_group in
utils.hpp): the named child must exist and be a group. -/
def check_and_open_group (h : Node) (name : String) : Except String Node :=
  match h.find name with
  | some (.group cs) => .ok (.group cs)
  | some _ => .error (name ++ " is not a group")
  | none => .error (name ++ " group is missing")

/-- Modelled from the spec: accessor open of a typed dataset with no shape
constraint (check_and_open_dataset in utils.hpp). -/
def check_and_open_dataset (h : Node) (name : String) (t : H5Type) : Except String Node :=
  match h.find name with
  | some n => if n.htype = some t then .ok n else .error (name ++ " dataset has the wrong type")
  | none => .error (name ++ " dataset is missing")

/-- Modelled from the spec: accessor open of a typed dataset with an exact
expected shape (check_and_open_dataset with a dimension argument). -/
def check_and_open_dataset_shape (h : Node) (name : String) (t : H5Type) (sh : List Nat) : Except String Node :=
  match h.find name with
  | some n =>
      if n.htype = some t ∧ n.dshape = some sh then .ok n
      else .error (name ++ " dataset has the wrong type or shape")
  | none => .error (name ++ " dataset is missing")

/-- Modelled from the spec: accessor open of a typed scalar dataset
(check_and_open_scalar in utils.hpp). -/
def check_and_open_scalar (h : Node) (name : String) (t : H5Type) : Except String Node :=
  check_and_open_dataset_shape h name t []

/-- Modelled from the spec: read a named integer scalar
(load_integer_scalar in utils.hpp). -/
def load_integer_scalar (h : Node) (name : String) : Except String Int :=
  match h.find name with
  | some (.intScalar v) => .ok v
  | some _ => .error (name ++ " should be an integer scalar dataset")
  | none => .error (name ++ " dataset is missing")

/-- The uint64 (hsize_t) value of a stored integer: reduction mod 2 ^ 64. -/
def toHsize (v : Int) : Nat := (v % 18446744073709551616).toNat

/-- Modelled from the spec: read a named integer scalar into hsize_t
(load_integer_scalar with an unsigned 64-bit template argument). -/
def load_integer_scalar_hsize (h : Node) (name : String) : Except String Nat := do
  let v ← load_integer_scalar h name
  pure (toHsize v)

/-- Modelled from the spec: read a named 1-dimensional integer dataset
(load_integer_vector in utils.hpp). -/
def load_integer_vector (h : Node) (name : String) : Except String (List Int) :=
  match h.find name with
  | some (.intVec vs) => .ok vs
  | some _ => .error (name ++ " should be a 1-dimensional integer dataset")
  | none => .error (name ++ " dataset is missing")

/-- Modelled from the spec: read a scalar string dataset (the one-argument
load_string overload in utils.hpp). -/
def load_string : Node → Except String String
  | .strScalar s => .ok s
  | _ => .error "expected a scalar string dataset"

/-- Modelled from the spec: read a named scalar string dataset (the
two-argument load_string overload in utils.hpp). -/
def load_string_at (h : Node) (name : String) : Except String String :=
  match h.find name with
  | some (.strScalar s) => .ok s
  | some _ => .error (name ++ " should be a scalar string dataset")
  | none => .error (name ++ " dataset is missing")

/-- Modelled from the spec: read a named 1-dimensional string dataset
(load_string_vector in utils.hpp). -/
def load_string_vector (h : Node) (name : String) : Except String (List String) :=
  match h.find name with
  | some (.strVec ss) => .ok ss
  | some _ => .error (name ++ " should be a 1-dimensional string dataset")
  | none => .error (name ++ " dataset is missing")

/-! ## Ingestion validator (inputs.hpp) -/

namespace inputs

/-- Details record produced by the ingestion validator (inputs.hpp lines
26 to 50). -/
structure Details where
  modalities : List String
  num_features : List Int
  num_cells : Int
  num_samples : Int
deriving Repr, DecidableEq

/-- Internal parameter dump passed from the parameters phase to the
results phase (inputs.hpp lines 55 to 59). -/
structure ParamDump where
  num_matrices : Int
  multi_matrix : Bool
  multi_sample : Bool
deriving Repr, DecidableEq

/-- First string of the list already seen earlier in the scan, if any
(the unordered_set scan of inputs.hpp lines 105 to 111). -/
def find_duplicate : List String → List String → Option String
  | [], _ => none
  | s :: rest, seen => if s ∈ seen then some s else find_duplicate rest (s :: seen)

/-- Multi-matrix run bookkeeping of validate_parameters (inputs.hpp lines
88 to 111): sample_groups must match format in length, sum to the number
of files, and sample_names must match format in length with no duplicate
name.  Returns the run sizes. -/
def check_sample_groups (phandle : Node) (formats : List String) (nfiles : Nat) : Except String (List Int) := do
  let runs ← load_integer_vector phandle "sample_groups"
  if runs.length ≠ formats.length then
    Except.error "sample_groups and format should have the same length"
  else
    let total_files := List.foldl (fun a b => a + b) (0 : Int) runs
    if total_files ≠ (nfiles : Int) then
      Except.error "sum of sample_groups is not equal to the length of files"
    else do
      let names ← load_string_vector phandle "sample_names"
      if names.length ≠ formats.length then
        Except.error "sample_names and format should have the same length"
      else match find_duplicate names [] with
        | some s => Except.error ("duplicated sample name " ++ s ++ " in sample_names")
        | none => pure runs

/-- Per-file reads of validate_parameters (inputs.hpp lines 126 to 138):
the file group must exist, hold a scalar string name and a type; embedded
files carry offset and size (read as hsize_t), linked files carry an id.
Returns the type plus any recorded (offset, size) pair. -/
def process_file (fihandle : Node) (embedded : Bool) (current : String) : Except String (String × List (Nat × Nat)) := do
  let curfihandle ← check_and_open_group fihandle current
  let _ ← check_and_open_dataset_shape curfihandle "name" H5Type.Str []
  let t ← load_string_at curfihandle "type"
  if embedded then do
    let off ← load_integer_scalar_hsize curfihandle "offset"
    let sz ← load_integer_scalar_hsize curfihandle "size"
    pure (t, [(off, sz)])
  else do
    let _ ← check_and_open_dataset_shape curfihandle "id" H5Type.Str []
    pure (t, [])

/-- The inner file loop of one run (inputs.hpp lines 123 to 142): files
are addressed by their global 0-based position rendered in decimal, and
any per-file fault is wrapped with the file position. -/
def process_run (fihandle : Node) (embedded : Bool) : Nat → Nat → Except String (List String × List (Nat × Nat))
  | _, 0 => .ok ([], [])
  | sofar, k + 1 => do
      let (t, bs) ← wrapE ("failed to retrieve information for file " ++ toString sofar)
        (process_file fihandle embedded (toString sofar))
      let (ts, bss) ← process_run fihandle embedded (sofar + 1) k
      .ok (t :: ts, bs ++ bss)

/-- MatrixMarket type counting (inputs.hpp lines 145 to 156): counts mtx,
genes and annotations entries, failing on any other type value. -/
def count_mm_types : List String → Nat × Nat × Nat → Except String (Nat × Nat × Nat)
  | [], acc => .ok acc
  | t :: ts, (m, g, a) =>
      if t = "mtx" then count_mm_types ts (m + 1, g, a)
      else if t = "genes" then count_mm_types ts (m, g + 1, a)
      else if t = "annotations" then count_mm_types ts (m, g, a + 1)
      else .error ("unknown file type " ++ t ++ " when format is MatrixMarket")

/-- Per-run type-set check keyed by the format of the run (inputs.hpp
lines 144 to 176). -/
def check_run_types (curf : String) (types : List String) : Except String Unit :=
  if curf = "MatrixMarket" then do
    let (m, g, a) ← count_mm_types types (0, 0, 0)
    if m ≠ 1 then Except.error "expected exactly one mtx file when format is MatrixMarket"
    else if g > 1 then Except.error "expected no more than one genes file when format is MatrixMarket"
    else if a > 1 then Except.error "expected no more than one annotations file when format is MatrixMarket"
    else pure ()
  else if curf = "10X" then
    if types.length ≠ 1 ∨ types.head? ≠ some "h5" then
      Except.error "expected exactly one h5 file when format is 10X"
    else pure ()
  else if curf = "H5AD" then
    if types.length ≠ 1 ∨ types.head? ≠ some "h5" then
      Except.error "expected exactly one h5 file when format is H5AD"
    else pure ()
  else pure ()

/-- The outer run loop of validate_parameters (inputs.hpp lines 119 to
177): each run consumes its count of consecutive files (a non-positive
count consumes none, as in the C++ for loop) and is then type-checked;
all recorded (offset, size) pairs are concatenated in file order. -/
def process_runs (fihandle : Node) (embedded : Bool) : List (String × Int) → Nat → Except String (List (Nat × Nat))
  | [], _ => .ok []
  | (curf, rcount) :: rest, sofar => do
      let (types, bytes) ← process_run fihandle embedded sofar rcount.toNat
      check_run_types curf types
      let more ← process_runs fihandle embedded rest (sofar + rcount.toNat)
      .ok (bytes ++ more)

/-- Contiguity check on the recorded embedded byte ranges (inputs.hpp
lines 180 to 188): each offset must equal the running total of the sizes
so far, accumulated in unsigned 64-bit arithmetic. -/
def check_contiguous : List (Nat × Nat) → Nat → Except String Unit
  | [], _ => .ok ()
  | b :: bs, sofar =>
      if b.1 ≠ sofar then .error "offsets and sizes of files are not sorted and contiguous"
      else check_contiguous bs ((sofar + b.2) % 18446744073709551616)

/-- Parameters phase of the ingestion validator (inputs.hpp lines 61 to
199). -/
def validate_parameters (handle : Node) (embedded : Bool) (version : Int) : Except String ParamDump := do
  let phandle ← check_and_open_group handle "parameters"
  let fhandle ← check_and_open_dataset phandle "format" H5Type.Str
  let (multi_matrix, formats) ←
    match fhandle with
    | .strScalar s => pure (false, [s])
    | .strVec ss =>
        if version < 1001000 then
          Except.error "format should be a scalar string in version 1.0"
        else pure (true, ss)
    | _ => Except.error "format should be a string dataset"
  let fihandle ← check_and_open_group phandle "files"
  let nfiles := fihandle.numObjs
  let runs ←
    if multi_matrix then check_sample_groups phandle formats nfiles
    else pure [(nfiles : Int)]
  let bytes ← process_runs fihandle embedded (formats.zip runs) 0
  if embedded then check_contiguous bytes 0 else pure ()
  let multi_sample ←
    if multi_matrix = false ∧ (phandle.find "sample_factor").isSome then do
      let _ ← check_and_open_dataset_shape phandle "sample_factor" H5Type.Str []
      pure true
    else pure multi_matrix
  pure { num_matrices := (formats.length : Int), multi_matrix := multi_matrix, multi_sample := multi_sample }

/-- Per-modality feature count reads under the num_features group
(inputs.hpp lines 227 to 231). -/
def load_feature_counts (fhandle : Node) : List String → Except String (List Int)
  | [] => .ok []
  | m :: ms => do
      let v ← load_integer_scalar fhandle m
      let rest ← load_feature_counts fhandle ms
      .ok (v :: rest)

/-- Results phase, dimensions and modality extraction (inputs.hpp lines
206 to 232): before version 2000000 a length-2 non-negative dimensions
dataset with a single implicit RNA modality, afterwards a num_cells
scalar plus a non-empty num_features group read in child order. -/
def load_modalities_block (rhandle : Node) (version : Int) : Except String (List String × List Int × Int) :=
  if version < 2000000 then
    load_integer_vector rhandle "dimensions" >>= fun dims =>
    if dims.length ≠ 2 then Except.error "dimensions should be a dataset of length 2"
    else if dims.getD 0 0 < 0 ∨ dims.getD 1 0 < 0 then
      Except.error "dimensions should contain non-negative integers"
    else pure (["RNA"], [dims.getD 0 0], dims.getD 1 0)
  else do
    let num_cells ← load_integer_scalar rhandle "num_cells"
    let fhandle ← check_and_open_group rhandle "num_features"
    let modalities := fhandle.childNames
    if modalities.length = 0 then Except.error "number of modalities should be positive"
    else do
      let nf ← load_feature_counts fhandle modalities
      pure (modalities, nf, num_cells)

/-- Sample count extraction and consistency checks (inputs.hpp lines 235
to 247): defaults to 1 when absent; must equal the matrix count for
multi-matrix inputs; must be 1 for single-matrix inputs with no
sample_factor. -/
def check_num_samples (rhandle : Node) (pd : ParamDump) : Except String Int :=
  (if (rhandle.find "num_samples").isSome then load_integer_scalar rhandle "num_samples"
   else pure 1) >>= fun ns =>
  if pd.multi_matrix then
    if ns ≠ pd.num_matrices then
      Except.error "num_samples should be equal to the number of matrices"
    else pure ns
  else
    if pd.multi_sample = false ∧ ns ≠ 1 then
      Except.error "num_samples should be 1 for single matrix inputs without sample_factor"
    else pure ns

/-- Uniqueness scan over a row-identity vector (the check_unique lambda of
inputs.hpp lines 249 to 260): fails on the first negative or previously
seen value. -/
def check_unique (msg : String) : List Int → List Int → Except String Unit
  | [], _ => .ok ()
  | i :: rest, seen =>
      if i < 0 then .error (msg ++ " contains negative values")
      else if i ∈ seen then .error (msg ++ " contains duplicate values")
      else check_unique msg rest (i :: seen)

/-- The permutation loop of inputs.hpp lines 295 to 303: every value must
lie in [0, n) and must not have been marked before. -/
def perm_loop (n : Nat) : List Int → List Int → Except String Unit
  | [], _ => .ok ()
  | p :: ps, seen =>
      if p < 0 ∨ (n : Int) ≤ p then .error "permutation contains out-of-range values"
      else if p ∈ seen then .error "duplicated index in permutation"
      else perm_loop n ps (p :: seen)

/-- Legacy permutation check (inputs.hpp lines 288 to 304): the array must
have exactly nfeat entries and its values must be a bijection on
[0, length). -/
def check_permutation (perms : List Int) (nfeat : Int) : Except String Unit :=
  if (perms.length : Int) ≠ nfeat then
    .error "permutation should have length equal to the number of genes"
  else perm_loop perms.length perms []

/-- Per-modality identities checks for version 2000000 and newer
(inputs.hpp lines 262 to 270). -/
def check_identities_per_modality (ihandle : Node) : List (String × Int) → Except String Unit
  | [] => .ok ()
  | (m, nf) :: rest => do
      let idx ← load_integer_vector ihandle m
      if (idx.length : Int) ≠ nf then
        Except.error ("identities for modality " ++ m ++ " should have length equal to its number of features")
      else do
        check_unique ("identities for modality " ++ m) idx []
        check_identities_per_modality ihandle rest

/-- Row-identity check, one of three mutually exclusive strategies keyed
by version and multi_matrix (inputs.hpp lines 262 to 305). -/
def check_identities_block (rhandle : Node) (pd : ParamDump) (version : Int) (modalities : List String) (num_features : List Int) : Except String Unit :=
  if version ≥ 2000000 then do
    let ihandle ← check_and_open_group rhandle "identities"
    check_identities_per_modality ihandle (modalities.zip num_features)
  else if version ≥ 1002000 then do
    let idx ← load_integer_vector rhandle "identities"
    if (idx.length : Int) ≠ num_features.headI then
      Except.error "identities should have length equal to the number of genes"
    else check_unique "identities" idx []
  else if pd.multi_matrix then do
    let idx ← load_integer_vector rhandle "indices"
    if (idx.length : Int) ≠ num_features.headI then
      Except.error "indices should have length equal to the number of genes"
    else check_unique "indices" idx []
  else do
    let perms ← load_integer_vector rhandle "permutation"
    check_permutation perms num_features.headI

/-- Results phase of the ingestion validator (inputs.hpp lines 201 to
308). -/
def validate_results (handle : Node) (pd : ParamDump) (version : Int) : Except String Details := do
  let rhandle ← check_and_open_group handle "results"
  let (modalities, num_features, num_cells) ← load_modalities_block rhandle version
  let num_samples ← check_num_samples rhandle pd
  check_identities_block rhandle pd version modalities num_features
  pure { modalities := modalities, num_features := num_features,
         num_cells := num_cells, num_samples := num_samples }

/-- Entry point of the ingestion validator (inputs.hpp lines 496 to 514). -/
def validate (handle : Node) (embedded : Bool) (version : Int) : Except String Details := do
  let ihandle ← check_and_open_group handle "inputs"
  let dump ← wrapE "failed to retrieve parameters from inputs" (validate_parameters ihandle embedded version)
  wrapE "failed to retrieve results from inputs" (validate_results ihandle dump version)

end inputs

/-! ## PCA validator (pca.hpp) -/

namespace pca

/-- Modelled from the spec: check_block_method lives in misc.hpp, which is
outside the provided sources; per the spec the block method must be one of
none, regress or mnn. -/
def check_block_method (method : String) (_version : Int) : Except String Unit :=
  if method = "none" ∨ method = "regress" ∨ method = "mnn" then pure ()
  else Except.error "unrecognized value for block_method"

/-- Modelled from the spec: check_pca_contents lives in misc.hpp, which is
outside the provided sources.  Per the spec, pcs must be a 2-dimensional
float matrix shaped [num_cells, observed_pcs] where observed_pcs is read
from the actual stored width and may be at most the requested number of
PCs, and var_exp must be a float vector of length observed_pcs; the
observed width is returned. -/
def check_pca_contents (rhandle : Node) (max_pcs : Int) (num_cells : Int) : Except String Int :=
  check_and_open_dataset rhandle "pcs" H5Type.Float >>= fun dh =>
  if (dh.dshape.getD []).length ≠ 2 then
    Except.error "pcs should be a 2-dimensional float dataset"
  else if (((dh.dshape.getD []).getD 0 0 : Nat) : Int) ≠ num_cells then
    Except.error "number of rows in pcs should be equal to the number of cells"
  else if (((dh.dshape.getD []).getD 1 0 : Nat) : Int) > max_pcs then
    Except.error "number of columns in pcs should not exceed the requested number of PCs"
  else
    check_and_open_dataset_shape rhandle "var_exp" H5Type.Float [(dh.dshape.getD []).getD 1 0] >>= fun _ =>
    pure (((dh.dshape.getD []).getD 1 0 : Nat) : Int)

/-- Parameters phase of the PCA validator (pca.hpp lines 22 to 42):
positive num_hvgs and num_pcs, plus a block_method for version 1001000
and newer.  Returns the requested PC count and the block method. -/
def validate_parameters (handle : Node) (version : Int) : Except String (Int × String) := do
  let phandle ← check_and_open_group handle "parameters"
  let nhvgs ← load_integer_scalar phandle "num_hvgs"
  if nhvgs ≤ 0 then Except.error "number of HVGs must be positive in num_hvgs"
  else do
    let npcs ← load_integer_scalar phandle "num_pcs"
    if npcs ≤ 0 then Except.error "number of PCs must be positive in num_pcs"
    else do
      let method ←
        if version ≥ 1001000 then do
          let m ← load_string_at phandle "block_method"
          check_block_method m version
          pure m
        else pure ""
      pure (npcs, method)

/-- Results phase of the PCA validator (pca.hpp lines 44 to 56): the pcs
and var_exp contents fix the observed PC count; in versions 1001000 to
1999999 with block_method mnn a corrected matrix with exactly the shape
of pcs must also be present. -/
def validate_results (handle : Node) (max_pcs : Int) (block_method : String) (num_cells : Int) (version : Int) : Except String Int := do
  let rhandle ← check_and_open_group handle "results"
  let obs_pcs ← check_pca_contents rhandle max_pcs num_cells
  if version ≥ 1001000 ∧ version < 2000000 then
    if block_method = "mnn" then do
      let _ ← check_and_open_dataset_shape rhandle "corrected" H5Type.Float [num_cells.toNat, obs_pcs.toNat]
      pure obs_pcs
    else pure obs_pcs
  else pure obs_pcs

/-- Entry point of the PCA validator (pca.hpp lines 96 to 117). -/
def validate (handle : Node) (num_cells : Int) (version : Int) : Except String Int := do
  let phandle ← check_and_open_group handle "pca"
  let pout ← wrapE "failed to retrieve parameters from pca" (validate_parameters phandle version)
  wrapE "failed to retrieve results from pca" (validate_results phandle pout.1 pout.2 num_cells version)

end pca

/-! ## Combined embeddings validator (combine_embeddings.hpp) -/

namespace combine_embeddings

/-- Weight checks: when the weights group is non-empty, every declared
modality must have a float scalar weight (combine_embeddings.hpp lines 27
to 31). -/
def check_weights (whandle : Node) : List String → Except String Unit
  | [] => .ok ()
  | m :: ms => do
      let _ ← check_and_open_scalar whandle m H5Type.Float
      check_weights whandle ms

/-- Parameters phase of the combined embeddings validator
(combine_embeddings.hpp lines 22 to 34). -/
def validate_parameters (handle : Node) (modalities : List String) : Except String Unit := do
  let phandle ← check_and_open_group handle "parameters"
  let _ ← check_and_open_scalar phandle "approximate" H5Type.Integer
  let whandle ← check_and_open_group phandle "weights"
  if whandle.numObjs ≠ 0 then check_weights whandle modalities else pure ()

/-- Results phase of the combined embeddings validator
(combine_embeddings.hpp lines 36 to 45): a combined float matrix of shape
[num_cells, total_dims] is demanded exactly when more than one modality
is declared. -/
def validate_results (handle : Node) (num_cells : Int) (modalities : List String) (total_dims : Int) : Except String Unit := do
  let rhandle ← check_and_open_group handle "results"
  if modalities.length > 1 then do
    let _ ← check_and_open_dataset_shape rhandle "combined" H5Type.Float [num_cells.toNat, total_dims.toNat]
    pure ()
  else pure ()

/-- Entry point of the combined embeddings validator
(combine_embeddings.hpp lines 86 to 106): versions before 2000000 return
immediately without touching the container. -/
def validate (handle : Node) (num_cells : Int) (modalities : List String) (total_dims : Int) (version : Int) : Except String Unit := do
  if version < 2000000 then pure ()
  else do
    let phandle ← check_and_open_group handle "combine_embeddings"
    let _ ← wrapE "failed to retrieve parameters from combine_embeddings" (validate_parameters phandle modalities)
    wrapE "failed to retrieve results from combine_embeddings" (validate_results phandle num_cells modalities total_dims)

end combine_embeddings

/-! ## Custom selections validator (custom_selections.hpp) -/

namespace custom_selections

/-- Index range scan for one selection (custom_selections.hpp lines 32 to
36): every cell index must lie in [0, num_cells); the error names the
selection. -/
def check_selection_indices (nm : String) (num_cells : Int) : List Int → Except String Unit
  | [] => .ok ()
  | i :: is =>
      if i < 0 ∨ i ≥ num_cells then .error ("indices out of range for selection " ++ nm)
      else check_selection_indices nm num_cells is

/-- The per-selection loop of validate_parameters (custom_selections.hpp
lines 27 to 37), iterating the children in enumeration order. -/
def sel_loop (shandle : Node) (num_cells : Int) : List String → Except String Unit
  | [] => .ok ()
  | nm :: rest => do
      let involved ← load_integer_vector shandle nm
      check_selection_indices nm num_cells involved
      sel_loop shandle num_cells rest

/-- Parameters phase of the custom selections validator
(custom_selections.hpp lines 22 to 40): returns the selection names in
child-enumeration order. -/
def validate_parameters (handle : Node) (num_cells : Int) : Except String (List String) := do
  let phandle ← check_and_open_group handle "parameters"
  let shandle ← check_and_open_group phandle "selections"
  sel_loop shandle num_cells shandle.childNames
  pure shandle.childNames

end custom_selections

/-! ## Concrete containers used as test inputs -/

/-- An embedded file entry with the given type, offset and size. -/
def mkFile (t : String) (off sz : Int) : Node :=
  .group [("name", .strScalar "f"), ("type", .strScalar t),
          ("offset", .intScalar off), ("size", .intScalar sz)]

/-- A linked (non-embedded) file entry with the given type. -/
def mkLinkedFile (t : String) : Node :=
  .group [("name", .strScalar "f"), ("type", .strScalar t), ("id", .strScalar "i")]

/-- The end-to-end scenario of the spec, as written: two matrices with
sample_groups [2, 1], both formats 10X, sizes [100, 200, 50] and offsets
[0, 100, 300]. -/
def c1orig : Node :=
  .group [("parameters", .group [
    ("format", .strVec ["10X", "10X"]),
    ("files", .group [("0", mkFile "h5" 0 100), ("1", mkFile "h5" 100 200),
                      ("2", mkFile "h5" 300 50)]),
    ("sample_groups", .intVec [2, 1]),
    ("sample_names", .strVec ["a", "b"])])]

/-- The end-to-end scenario amended so that the two-file first run is a
MatrixMarket matrix (mtx plus genes) and the one-file second run is 10X. -/
def c1good : Node :=
  .group [("parameters", .group [
    ("format", .strVec ["MatrixMarket", "10X"]),
    ("files", .group [("0", mkFile "mtx" 0 100), ("1", mkFile "genes" 100 200),
                      ("2", mkFile "h5" 300 50)]),
    ("sample_groups", .intVec [2, 1]),
    ("sample_names", .strVec ["a", "b"])])]

/-- The amended scenario with the third offset moved to 301, breaking
contiguity. -/
def c1bad : Node :=
  .group [("parameters", .group [
    ("format", .strVec ["MatrixMarket", "10X"]),
    ("files", .group [("0", mkFile "mtx" 0 100), ("1", mkFile "genes" 100 200),
                      ("2", mkFile "h5" 301 50)]),
    ("sample_groups", .intVec [2, 1]),
    ("sample_names", .strVec ["a", "b"])])]

/-- A single-matrix embedded input whose second byte range has size
2 ^ 64 - 1, so that the unsigned 64-bit running total wraps around: the
offsets are [0, 2 ^ 64 - 1, 0] with sizes [2 ^ 64 - 1, 1, 5]. -/
def c3wrap : Node :=
  .group [("parameters", .group [
    ("format", .strScalar "custom"),
    ("files", .group [("0", mkFile "x" 0 18446744073709551615),
                      ("1", mkFile "x" 18446744073709551615 1),
                      ("2", mkFile "x" 0 5)])])]

/-- A version 2000000 container that fully validates while carrying a
negative num_cells and a zero num_samples: the multi-matrix format list is
empty, so num_samples must equal 0, and num_cells is never range-checked
in the version 2000000 results path. -/
def c4bad : Node :=
  .group [("inputs", .group [
    ("parameters", .group [
      ("format", .strVec []),
      ("files", .group []),
      ("sample_groups", .intVec []),
      ("sample_names", .strVec [])]),
    ("results", .group [
      ("num_cells", .intScalar (-3)),
      ("num_features", .group [("RNA", .intScalar 8)]),
      ("num_samples", .intScalar 0),
      ("identities", .group [("RNA", .intVec [0, 1, 2, 3, 4, 5, 6, 7])])])])]

/-- A well-formed version 1000000 single-matrix container. -/
def c4good : Node :=
  .group [("inputs", .group [
    ("parameters", .group [
      ("format", .strScalar "custom"),
      ("files", .group [("0", mkLinkedFile "t")])]),
    ("results", .group [
      ("dimensions", .intVec [4, 6]),
      ("permutation", .intVec [0, 1, 2, 3])])])]

/-- A single-matrix parameters region carrying a sample_groups of the
wrong length and sum and a duplicated sample_names entry: none of the
multi-matrix checks fire because format is scalar. -/
def c5single : Node :=
  .group [("parameters", .group [
    ("format", .strScalar "custom"),
    ("files", .group [("0", mkLinkedFile "t")]),
    ("sample_groups", .intVec [5, 7]),
    ("sample_names", .strVec ["x", "x"])])]

/-- A PCA container requesting 50 PCs while storing a pcs matrix with only
30 columns and a var_exp of length 30. -/
def pcaGood : Node :=
  .group [("pca", .group [
    ("parameters", .group [("num_hvgs", .intScalar 100), ("num_pcs", .intScalar 50),
                           ("block_method", .strScalar "none")]),
    ("results", .group [("pcs", .floatData [20, 30]), ("var_exp", .floatData [30])])])]

/-- The same PCA container with var_exp of length 50: var_exp is validated
against the observed width 30, so this must fail. -/
def pcaBad : Node :=
  .group [("pca", .group [
    ("parameters", .group [("num_hvgs", .intScalar 100), ("num_pcs", .intScalar 50),
                           ("block_method", .strScalar "none")]),
    ("results", .group [("pcs", .floatData [20, 30]), ("var_exp", .floatData [50])])])]

/-- A PCA stage region whose results hold pcs [5, 3], var_exp [3] and a
corrected matrix of the same shape as pcs. -/
def pcaRes6 : Node :=
  .group [("results", .group [("pcs", .floatData [5, 3]), ("var_exp", .floatData [3]),
                              ("corrected", .floatData [5, 3])])]

/-- The inner results group of pcaRes6. -/
def pcaRes6inner : Node :=
  .group [("pcs", .floatData [5, 3]), ("var_exp", .floatData [3]),
          ("corrected", .floatData [5, 3])]

/-- A combined embeddings stage region with an empty results group. -/
def ceRes1 : Node := .group [("results", .group [])]

/-- A results region holding only a permutation vector. -/
def selRh : Node := .group [("permutation", .intVec [0, 2, 1])]

/-- A parameters node carrying consistent multi-matrix bookkeeping:
sample_groups [1, 2] and distinct sample_names for two formats. -/
def c5mm : Node :=
  .group [("sample_groups", .intVec [1, 2]), ("sample_names", .strVec ["a", "b"])]

/-- A custom selections stage region with one selection of two in-range
cell indices. -/
def c9sel : Node :=
  .group [("parameters", .group [("selections", .group [("s1", .intVec [0, 2])])])]

end kanaval

/-! ## Helper lemmas on the Except monad -/

theorem exceptBind_ok {α β : Type} (x : Except String α) (f : α → Except String β) (b : β) :
    (x >>= f) = Except.ok b ↔ ∃ a, x = Except.ok a ∧ f a = Except.ok b := by
  cases x <;> simp [Bind.bind, Except.bind]

theorem kanaval_wrapE_ok {α : Type} (msg : String) (x : Except String α) (a : α) :
    kanaval.wrapE msg x = Except.ok a ↔ x = Except.ok a := by
  cases x <;> simp [kanaval.wrapE]

open kanaval in
/-- C1: the spec scenario as stated (version 2001000, two matrices with
sample_groups [2, 1], three files, format [10X, 10X], embedded sizes
[100, 200, 50] at offsets [0, 100, 300]) does NOT pass the parameters
phase: the first run holds two files, but a 10X run must hold exactly one
h5 file, so validate_parameters fails regardless of the offsets. -/
theorem inputs_c1_spec_scenario_fails :
    inputs.validate_parameters c1orig true 2001000 =
      Except.error "expected exactly one h5 file when format is 10X" := by
  rfl

open kanaval in
/-- C1 (amended): the same scenario with the two-file first run declared
as MatrixMarket (types mtx and genes) and the single-file second run as
10X: the parameters phase succeeds with offsets [0, 100, 300], and
changing the third offset to 301 fails with the contiguity error. -/
theorem inputs_c1_amended_scenario :
    inputs.validate_parameters c1good true 2001000 =
      Except.ok { num_matrices := 2, multi_matrix := true, multi_sample := true } ∧
    inputs.validate_parameters c1bad true 2001000 =
      Except.error "offsets and sizes of files are not sorted and contiguous" := by
  exact ⟨rfl, rfl⟩

/-! ## The permutation check -/

theorem perm_loop_ok_iff (n : Nat) (l : List Int) : ∀ seen : List Int,
    kanaval.inputs.perm_loop n l seen = Except.ok () ↔
      ((∀ p ∈ l, 0 ≤ p ∧ p < (n : Int)) ∧ l.Nodup ∧ ∀ p ∈ l, p ∉ seen) := by
  induction l with
  | nil => intro seen; simp [kanaval.inputs.perm_loop]
  | cons p ps ih =>
    intro seen
    rw [kanaval.inputs.perm_loop]
    by_cases h1 : p < 0 ∨ (n : Int) ≤ p
    · rw [if_pos h1]
      constructor
      · intro h; exact absurd h (by simp)
      · rintro ⟨hall, -, -⟩
        have := hall p (List.mem_cons_self p ps)
        omega
    · rw [if_neg h1]
      by_cases h2 : p ∈ seen
      · rw [if_pos h2]
        constructor
        · intro h; exact absurd h (by simp)
        · rintro ⟨-, -, hns⟩
          exact absurd h2 (hns p (List.mem_cons_self p ps))
      · rw [if_neg h2, ih (p :: seen)]
        constructor
        · rintro ⟨hr, hnd, hns⟩
          refine ⟨?_, ?_, ?_⟩
          · intro q hq
            rcases List.mem_cons.mp hq with rfl | hq2
            · omega
            · exact hr q hq2
          · refine List.nodup_cons.mpr ⟨fun hc => ?_, hnd⟩
            exact hns p hc (List.mem_cons_self p seen)
          · intro q hq
            rcases List.mem_cons.mp hq with rfl | hq2
            · exact h2
            · exact fun hqs => hns q hq2 (List.mem_cons_of_mem p hqs)
        · rintro ⟨hr, hnd, hns⟩
          refine ⟨fun q hq => hr q (List.mem_cons_of_mem p hq), (List.nodup_cons.mp hnd).2, ?_⟩
          intro q hq hqin
          rcases List.mem_cons.mp hqin with rfl | hqseen
          · exact (List.nodup_cons.mp hnd).1 hq
          · exact hns q (List.mem_cons_of_mem p hq) hqseen

theorem perm_coverage (l : List Int)
    (hrange : ∀ p ∈ l, 0 ≤ p ∧ p < (l.length : Int)) (hnd : l.Nodup) :
    ∀ j : Nat, j < l.length → (j : Int) ∈ l := by
  intro j hj
  have hnd2 : (l.map Int.toNat).Nodup := by
    refine hnd.map_on ?_
    intro x hx y hy hxy
    have hx0 := (hrange x hx).1
    have hy0 := (hrange y hy).1
    omega
  have hsub : l.map Int.toNat ⊆ List.range l.length := by
    intro a ha
    rcases List.mem_map.mp ha with ⟨x, hx, rfl⟩
    have := hrange x hx
    exact List.mem_range.mpr (by omega)
  have hsp : List.Subperm (l.map Int.toNat) (List.range l.length) :=
    List.subperm_of_subset hnd2 hsub
  have hperm : List.Perm (l.map Int.toNat) (List.range l.length) :=
    hsp.perm_of_length_le (by simp)
  have hjmem : j ∈ l.map Int.toNat :=
    hperm.mem_iff.mpr (List.mem_range.mpr hj)
  rcases List.mem_map.mp hjmem with ⟨x, hx, hxj⟩
  have hx0 := (hrange x hx).1
  have hxq : x = (j : Int) := by omega
  rwa [hxq] at hx

open kanaval in
/-- C2: for inputs with version before 1002000 and multi_matrix false, the
results validator routes the row-identity check through the legacy
permutation check, and that check accepts exactly when the array length
equals the first feature count and the values are a bijection on
[0, length): every value in range, no value repeated, hence every index
below the length is attained. -/
theorem inputs_c2_permutation_bijection :
    (∀ (perms : List Int) (nfeat : Int),
      inputs.check_permutation perms nfeat = Except.ok () ↔
        ((perms.length : Int) = nfeat ∧
         (∀ p ∈ perms, 0 ≤ p ∧ p < (perms.length : Int)) ∧
         perms.Nodup ∧
         ∀ j : Nat, j < perms.length → (j : Int) ∈ perms)) ∧
    (∀ (rhandle : Node) (pd : inputs.ParamDump) (version : Int)
       (modalities : List String) (num_features : List Int),
      version < 1002000 → pd.multi_matrix = false →
      inputs.check_identities_block rhandle pd version modalities num_features =
        (load_integer_vector rhandle "permutation" >>= fun perms =>
          inputs.check_permutation perms num_features.headI)) := by
  constructor
  · intro perms nfeat
    rw [inputs.check_permutation]
    by_cases hlen : (perms.length : Int) = nfeat
    · rw [if_neg (by exact fun hc => hc hlen)]
      rw [perm_loop_ok_iff]
      constructor
      · rintro ⟨hr, hnd, -⟩
        exact ⟨hlen, hr, hnd, perm_coverage perms hr hnd⟩
      · rintro ⟨-, hr, hnd, -⟩
        exact ⟨hr, hnd, by simp⟩
    · rw [if_pos hlen]
      constructor
      · intro h; exact absurd h (by simp)
      · rintro ⟨hc, -, -, -⟩; exact absurd hc hlen
  · intro rh pd v mods nf hv hm
    rw [inputs.check_identities_block]
    rw [if_neg (by omega), if_neg (by omega), if_neg (by simp [hm])]

open kanaval in
/-- C2 witness: the second component instantiated on a concrete results
region and a concrete parameter dump. -/
theorem inputs_c2_permutation_bijection_witness :
    kanaval.inputs.check_identities_block selRh
        { num_matrices := 1, multi_matrix := false, multi_sample := false }
        1001999 ["RNA"] [3] =
      (load_integer_vector selRh "permutation" >>= fun perms =>
        kanaval.inputs.check_permutation perms ([(3 : Int)].headI)) :=
  inputs_c2_permutation_bijection.2 selRh
    { num_matrices := 1, multi_matrix := false, multi_sample := false }
    1001999 ["RNA"] [3] (by omega) rfl

/-! ## The embedded contiguity check -/

theorem check_contiguous_ok_iff (l : List (Nat × Nat)) : ∀ sofar : Nat,
    sofar < 18446744073709551616 →
    (kanaval.inputs.check_contiguous l sofar = Except.ok () ↔
      ∀ k, k < l.length →
        (l.getD k (0, 0)).1 = (sofar + ((l.map Prod.snd).take k).sum) % 18446744073709551616) := by
  induction l with
  | nil => intro sofar hs; simp [kanaval.inputs.check_contiguous]
  | cons b bs ih =>
    intro sofar hs
    rw [kanaval.inputs.check_contiguous]
    by_cases h1 : b.1 = sofar
    · rw [if_neg (by exact fun hc => hc h1)]
      rw [ih ((sofar + b.2) % 18446744073709551616) (Nat.mod_lt _ (by norm_num))]
      constructor
      · intro hall k hk
        match k with
        | 0 => simpa [Nat.mod_eq_of_lt hs] using h1
        | k + 1 =>
          have hk2 : k < bs.length := by simpa using hk
          have := hall k hk2
          simpa [Nat.mod_add_mod, Nat.add_assoc] using this
      · intro hall k hk
        have hk2 : k + 1 < (b :: bs).length := by simpa using hk
        have := hall (k + 1) hk2
        simpa [Nat.mod_add_mod, Nat.add_assoc] using this
    · rw [if_pos h1]
      constructor
      · intro h; exact absurd h (by simp)
      · intro hall
        have := hall 0 (by simp)
        simp [Nat.mod_eq_of_lt hs] at this
        exact absurd this h1

open kanaval in
/-- C3 (amended): the parameters-phase contiguity check on the recorded
(offset, size) pairs, taken in file order, accepts exactly when every
offset equals the running sum of the preceding sizes reduced modulo
2 ^ 64 (the unsigned 64-bit accumulation actually performed); over the
plain integers this is the recurrence offset 0 = 0 and next offset =
offset + size whenever the running total stays below 2 ^ 64. -/
theorem inputs_c3_contiguity_amended (bytes : List (Nat × Nat)) :
    inputs.check_contiguous bytes 0 = Except.ok () ↔
      ∀ k, k < bytes.length →
        (bytes.getD k (0, 0)).1 =
          ((bytes.map Prod.snd).take k).sum % 18446744073709551616 := by
  have := check_contiguous_ok_iff bytes 0 (by norm_num)
  simpa using this

open kanaval in
/-- C3 counterexample: a single-matrix embedded input whose recorded
byte ranges are [(0, 2 ^ 64 - 1), (2 ^ 64 - 1, 1), (0, 5)] passes the
whole parameters phase, although the third offset (0) is NOT the integer
running sum of the preceding sizes (2 ^ 64): the unsigned 64-bit
accumulator wraps to 0, so the claimed integer recurrence does not hold
on accepted inputs. -/
theorem inputs_c3_contiguity_counterexample :
    inputs.validate_parameters c3wrap true 1000000 =
      Except.ok { num_matrices := 1, multi_matrix := false, multi_sample := false } ∧
    inputs.check_contiguous
      [(0, 18446744073709551615), (18446744073709551615, 1), (0, 5)] 0 = Except.ok () ∧
    (0 : Nat) ≠ 18446744073709551615 + 1 := by
  refine ⟨rfl, rfl, by norm_num⟩

open kanaval in
/-- C3 witness: the amended characterization applied to the contiguous
pair list [(0, 2), (2, 3)]. -/
theorem inputs_c3_contiguity_amended_witness :
    inputs.check_contiguous [(0, 2), (2, 3)] 0 = Except.ok () :=
  (inputs_c3_contiguity_amended [(0, 2), (2, 3)]).mpr (by
    intro k hk
    match k with
    | 0 => rfl
    | 1 => rfl
    | k + 2 => exact absurd hk (by simp))

/-! ## Invariants of the Details record -/

theorem load_modalities_block_nc_nonneg (rh : kanaval.Node) (v : Int)
    (mods : List String) (nf : List Int) (nc : Int)
    (h : kanaval.inputs.load_modalities_block rh v = Except.ok (mods, nf, nc))
    (hv : v < 2000000) : 0 ≤ nc := by
  rw [kanaval.inputs.load_modalities_block, if_pos hv] at h
  rw [exceptBind_ok] at h
  obtain ⟨dims, hload, hrest⟩ := h
  by_cases hlen : dims.length ≠ 2
  · rw [if_pos hlen] at hrest
    exact absurd hrest (by simp)
  · rw [if_neg hlen] at hrest
    by_cases hneg : dims.getD 0 0 < 0 ∨ dims.getD 1 0 < 0
    · rw [if_pos hneg] at hrest
      exact absurd hrest (by simp)
    · rw [if_neg hneg] at hrest
      simp only [pure, Except.pure, Except.ok.injEq, Prod.mk.injEq] at hrest
      obtain ⟨-, -, rfl⟩ := hrest
      omega

theorem check_num_samples_ok (rh : kanaval.Node) (pd : kanaval.inputs.ParamDump) (ns : Int)
    (h : kanaval.inputs.check_num_samples rh pd = Except.ok ns) :
    (pd.multi_matrix = true → ns = pd.num_matrices) ∧
    (pd.multi_matrix = false → pd.multi_sample = false → ns = 1) := by
  rw [kanaval.inputs.check_num_samples] at h
  rw [exceptBind_ok] at h
  obtain ⟨ns0, hns0, hif⟩ := h
  cases hmm : pd.multi_matrix with
  | true =>
    rw [hmm, if_pos rfl] at hif
    by_cases hne : ns0 ≠ pd.num_matrices
    · rw [if_pos hne] at hif
      exact absurd hif (by simp)
    · rw [if_neg hne] at hif
      simp only [pure, Except.pure, Except.ok.injEq] at hif
      subst hif
      exact ⟨fun _ => by omega, fun hc => absurd hc (by simp)⟩
  | false =>
    rw [hmm] at hif
    rw [if_neg (by simp)] at hif
    by_cases hms : pd.multi_sample = false ∧ ns0 ≠ 1
    · rw [if_pos hms] at hif
      exact absurd hif (by simp)
    · rw [if_neg hms] at hif
      simp only [pure, Except.pure, Except.ok.injEq] at hif
      subst hif
      refine ⟨fun hc => absurd hc (by simp), fun _ hms2 => ?_⟩
      by_cases h1 : ns0 = 1
      · exact h1
      · exact absurd ⟨hms2, h1⟩ hms

open kanaval in
/-- C4 counterexample: a version 2000000 container on which the whole
ingestion validator succeeds while the returned Details record has
num_cells equal to -3 and num_samples equal to 0: neither the claimed
non-negativity of num_cells nor the claimed positivity of num_samples
holds of every successful run. -/
theorem inputs_c4_details_counterexample :
    inputs.validate c4bad false 2000000 =
      Except.ok { modalities := ["RNA"], num_features := [8], num_cells := -3, num_samples := 0 } ∧
    ¬ (0 ≤ (-3 : Int) ∧ 0 < (0 : Int)) := by
  exact ⟨rfl, by omega⟩

open kanaval in
/-- C4 (amended): every Details record returned by a successful run of
the ingestion validator satisfies: num_cells is non-negative whenever
version < 2000000 (for version 2000000 and newer num_cells is read
without a range check), and num_samples equals the declared matrix count
for multi-matrix inputs and equals 1 for single-matrix inputs without a
sample_factor (in the remaining sample_factor case num_samples is read
without a range check). -/
theorem inputs_c4_details_invariant_amended (h : Node) (e : Bool) (v : Int)
    (d : inputs.Details) (hok : inputs.validate h e v = Except.ok d) :
    (v < 2000000 → 0 ≤ d.num_cells) ∧
    ∃ ih pd, check_and_open_group h "inputs" = Except.ok ih ∧
      inputs.validate_parameters ih e v = Except.ok pd ∧
      (pd.multi_matrix = true → d.num_samples = pd.num_matrices) ∧
      (pd.multi_matrix = false → pd.multi_sample = false → d.num_samples = 1) := by
  rw [inputs.validate] at hok
  rw [exceptBind_ok] at hok
  obtain ⟨ih, hih, hok⟩ := hok
  rw [exceptBind_ok] at hok
  obtain ⟨pd, hpd, hres⟩ := hok
  rw [kanaval_wrapE_ok] at hpd hres
  rw [inputs.validate_results] at hres
  rw [exceptBind_ok] at hres
  obtain ⟨rh, hrh, hres⟩ := hres
  rw [exceptBind_ok] at hres
  obtain ⟨x, hmods, hres⟩ := hres
  obtain ⟨mods, nf, nc⟩ := x
  rw [exceptBind_ok] at hres
  obtain ⟨ns, hns, hres⟩ := hres
  rw [exceptBind_ok] at hres
  obtain ⟨u, hid, hres⟩ := hres
  simp only [pure, Except.pure, Except.ok.injEq] at hres
  subst hres
  have hsamp := check_num_samples_ok rh pd ns hns
  refine ⟨?_, ih, pd, hih, hpd, hsamp.1, hsamp.2⟩
  intro hv
  exact load_modalities_block_nc_nonneg rh v mods nf nc hmods hv

open kanaval in
/-- C4 witness: the amended invariant applied to a concrete version
1000000 single-matrix container that validates successfully. -/
theorem inputs_c4_details_invariant_amended_witness :
    ((1000000 : Int) < 2000000 →
      0 ≤ (inputs.Details.mk ["RNA"] [4] 6 1).num_cells) ∧
    ∃ ih pd, check_and_open_group c4good "inputs" = Except.ok ih ∧
      inputs.validate_parameters ih false 1000000 = Except.ok pd ∧
      (pd.multi_matrix = true →
        (inputs.Details.mk ["RNA"] [4] 6 1).num_samples = pd.num_matrices) ∧
      (pd.multi_matrix = false → pd.multi_sample = false →
        (inputs.Details.mk ["RNA"] [4] 6 1).num_samples = 1) :=
  inputs_c4_details_invariant_amended c4good false 1000000
    (inputs.Details.mk ["RNA"] [4] 6 1) (by rfl)

/-! ## Multi-matrix sample-group checks -/

theorem find_duplicate_none_iff (names : List String) : ∀ seen : List String,
    kanaval.inputs.find_duplicate names seen = none ↔
      (names.Nodup ∧ ∀ s ∈ names, s ∉ seen) := by
  induction names with
  | nil => intro seen; simp [kanaval.inputs.find_duplicate]
  | cons a rest ih =>
    intro seen
    rw [kanaval.inputs.find_duplicate]
    by_cases h1 : a ∈ seen
    · rw [if_pos h1]
      constructor
      · intro h; exact absurd h (by simp)
      · rintro ⟨-, hall⟩
        exact absurd h1 (hall a (List.mem_cons_self a rest))
    · rw [if_neg h1, ih (a :: seen)]
      constructor
      · rintro ⟨hnd, hns⟩
        refine ⟨List.nodup_cons.mpr ⟨fun hc => ?_, hnd⟩, ?_⟩
        · exact hns a hc (List.mem_cons_self a seen)
        · intro s hs
          rcases List.mem_cons.mp hs with rfl | hs2
          · exact h1
          · exact fun hss => hns s hs2 (List.mem_cons_of_mem a hss)
      · rintro ⟨hnd, hns⟩
        refine ⟨(List.nodup_cons.mp hnd).2, ?_⟩
        intro s hs hsin
        rcases List.mem_cons.mp hsin with rfl | hseen
        · exact (List.nodup_cons.mp hnd).1 hs
        · exact hns s (List.mem_cons_of_mem a hs) hseen

open kanaval in
/-- C5: for multi-matrix inputs the parameters phase accepts the sample
bookkeeping exactly when sample_groups and sample_names both load, both
match format in length, the sample_groups sum equals the number of file
entries, and the sample names are pairwise distinct; and with a scalar
(single-matrix) format none of these checks runs, as shown by a concrete
container whose sample_groups has the wrong length and sum and whose
sample_names holds a duplicate, yet which validates. -/
theorem inputs_c5_sample_group_checks :
    (∀ (phandle : Node) (formats : List String) (nfiles : Nat) (runs : List Int),
      inputs.check_sample_groups phandle formats nfiles = Except.ok runs ↔
        (load_integer_vector phandle "sample_groups" = Except.ok runs ∧
         runs.length = formats.length ∧
         List.foldl (fun a b => a + b) (0 : Int) runs = (nfiles : Int) ∧
         ∃ names, load_string_vector phandle "sample_names" = Except.ok names ∧
           names.length = formats.length ∧ names.Nodup)) ∧
    inputs.validate_parameters c5single false 1000000 =
      Except.ok { num_matrices := 1, multi_matrix := false, multi_sample := false } := by
  constructor
  · intro ph formats nfiles runs
    rw [inputs.check_sample_groups]
    constructor
    · intro hok
      rw [exceptBind_ok] at hok
      obtain ⟨runs0, hload, hrest⟩ := hok
      by_cases h1 : runs0.length ≠ formats.length
      · rw [if_pos h1] at hrest; exact absurd hrest (by simp)
      · rw [if_neg h1] at hrest
        by_cases h2 : List.foldl (fun a b => a + b) (0 : Int) runs0 ≠ (nfiles : Int)
        · rw [if_pos h2] at hrest; exact absurd hrest (by simp)
        · rw [if_neg h2] at hrest
          rw [exceptBind_ok] at hrest
          obtain ⟨names, hnload, hrest⟩ := hrest
          by_cases h3 : names.length ≠ formats.length
          · rw [if_pos h3] at hrest; exact absurd hrest (by simp)
          · rw [if_neg h3] at hrest
            cases hdup : inputs.find_duplicate names [] with
            | some s =>
              rw [hdup] at hrest; exact absurd hrest (by simp)
            | none =>
              rw [hdup] at hrest
              simp only [pure, Except.pure, Except.ok.injEq] at hrest
              subst hrest
              have hnd := ((find_duplicate_none_iff names []).mp hdup).1
              exact ⟨hload, not_not.mp h1, not_not.mp h2, names, hnload, not_not.mp h3, hnd⟩
    · rintro ⟨hload, hlen, hsum, names, hnload, hnlen, hnd⟩
      rw [exceptBind_ok]
      refine ⟨runs, hload, ?_⟩
      rw [if_neg (fun hc => hc hlen), if_neg (fun hc => hc hsum)]
      rw [exceptBind_ok]
      refine ⟨names, hnload, ?_⟩
      rw [if_neg (fun hc => hc hnlen)]
      rw [(find_duplicate_none_iff names []).mpr ⟨hnd, by simp⟩]
      rfl
  · rfl

open kanaval in
/-- C5 witness: the characterization applied to a consistent concrete
multi-matrix parameters node with two formats and three files. -/
theorem inputs_c5_sample_group_checks_witness :
    inputs.check_sample_groups c5mm ["f", "g"] 3 = Except.ok [1, 2] :=
  (inputs_c5_sample_group_checks.1 c5mm ["f", "g"] 3 [1, 2]).mpr
    ⟨rfl, rfl, by norm_num, ["a", "b"], rfl, rfl, by simp⟩

/-! ## PCA results -/

theorem exceptOkBind {α β : Type} (a : α) (f : α → Except String β) :
    (Except.ok a >>= f) = f a := rfl

open kanaval in
/-- C6: given that the pcs and var_exp contents validate with observed
width obs, the PCA results phase succeeds exactly when the corrected
matrix of the exact shape of pcs ([num_cells, obs]) is present in the
versions from 1001000 up to (excluding) 2000000 with block method mnn; in
every other configuration it succeeds unconditionally, so the presence or
absence of corrected is then irrelevant. -/
theorem pca_c6_corrected_iff_mnn (h rh : Node) (maxp : Int) (bm : String)
    (nc v obs : Int)
    (hr : check_and_open_group h "results" = Except.ok rh)
    (hc : pca.check_pca_contents rh maxp nc = Except.ok obs) :
    pca.validate_results h maxp bm nc v = Except.ok obs ↔
      (1001000 ≤ v ∧ v < 2000000 ∧ bm = "mnn" →
        ∃ nd, check_and_open_dataset_shape rh "corrected" H5Type.Float
          [nc.toNat, obs.toNat] = Except.ok nd) := by
  rw [pca.validate_results]
  constructor
  · intro hok
    rw [exceptBind_ok] at hok
    obtain ⟨rh2, hrh2, hok⟩ := hok
    rw [hr] at hrh2
    obtain rfl : rh2 = rh := (Except.ok.inj hrh2).symm
    rw [exceptBind_ok] at hok
    obtain ⟨obs2, hobs2, hok⟩ := hok
    rw [hc] at hobs2
    obtain rfl : obs2 = obs := (Except.ok.inj hobs2).symm
    rintro ⟨hv1, hv2, hbm⟩
    rw [if_pos ⟨hv1, hv2⟩, if_pos hbm] at hok
    rw [exceptBind_ok] at hok
    obtain ⟨nd, hnd, -⟩ := hok
    exact ⟨nd, hnd⟩
  · intro himp
    rw [exceptBind_ok]
    refine ⟨rh, hr, ?_⟩
    rw [exceptBind_ok]
    refine ⟨obs, hc, ?_⟩
    by_cases hcond : v ≥ 1001000 ∧ v < 2000000
    · rw [if_pos hcond]
      by_cases hbm : bm = "mnn"
      · rw [if_pos hbm]
        obtain ⟨nd, hnd⟩ := himp ⟨hcond.1, hcond.2, hbm⟩
        rw [exceptBind_ok]
        exact ⟨nd, hnd, rfl⟩
      · rw [if_neg hbm]; rfl
    · rw [if_neg hcond]; rfl

open kanaval in
/-- C6 witness: a results region with pcs [5, 3], var_exp [3] and a
corrected matrix of shape [5, 3] passes the results phase at version
1001000 with block method mnn and observed width 3. -/
theorem pca_c6_corrected_iff_mnn_witness :
    pca.validate_results pcaRes6 10 "mnn" 5 1001000 = Except.ok 3 :=
  (pca_c6_corrected_iff_mnn pcaRes6 pcaRes6inner 10 "mnn" 5 1001000 3 rfl rfl).mpr
    (fun _ => ⟨Node.floatData [5, 3], rfl⟩)

open kanaval in
/-- C7: the PCA validator never requires the stored pcs width to equal
the requested number of PCs: for any stored width c at most the request,
the pcs and var_exp contents validate with observed width c; concretely,
requesting 50 PCs while storing a pcs matrix with 30 columns succeeds
with observed width 30, and var_exp is validated against length 30, not
50 (a var_exp of length 50 fails). -/
theorem pca_c7_observed_pcs :
    (∀ (r c : Nat) (maxp : Int), (c : Int) ≤ maxp →
      pca.check_pca_contents
        (Node.group [("pcs", Node.floatData [r, c]), ("var_exp", Node.floatData [c])])
        maxp (r : Int) = Except.ok (c : Int)) ∧
    pca.validate pcaGood 20 1001000 = Except.ok 30 ∧
    (∃ e, pca.validate pcaBad 20 1001000 = Except.error e) := by
  refine ⟨?_, rfl, ⟨_, rfl⟩⟩
  intro r c maxp hle
  rw [pca.check_pca_contents]
  have h1 : check_and_open_dataset
      (Node.group [("pcs", Node.floatData [r, c]), ("var_exp", Node.floatData [c])])
      "pcs" H5Type.Float = Except.ok (Node.floatData [r, c]) := rfl
  rw [h1, exceptOkBind]
  have h2 : (Node.floatData [r, c]).dshape.getD [] = [r, c] := rfl
  rw [h2]
  have h2a : ([r, c].getD 0 0 : Nat) = r := rfl
  have h2b : ([r, c].getD 1 0 : Nat) = c := rfl
  rw [h2a, h2b]
  rw [if_neg (by simp)]
  rw [if_neg (by omega)]
  rw [if_neg (by omega)]
  have h3 : check_and_open_dataset_shape
      (Node.group [("pcs", Node.floatData [r, c]), ("var_exp", Node.floatData [c])])
      "var_exp" H5Type.Float [c] = Except.ok (Node.floatData [c]) := by
    show (if (Node.floatData [c]).htype = some H5Type.Float ∧
             (Node.floatData [c]).dshape = some [c]
          then Except.ok (Node.floatData [c])
          else Except.error ("var_exp" ++ " dataset has the wrong type or shape")) =
         Except.ok (Node.floatData [c])
    exact if_pos ⟨rfl, rfl⟩
  rw [h3, exceptOkBind]
  rfl

open kanaval in
/-- C7 witness: the universal component at stored width 3 against a
request of 10. -/
theorem pca_c7_observed_pcs_witness :
    pca.check_pca_contents
      (Node.group [("pcs", Node.floatData [5, 3]), ("var_exp", Node.floatData [3])])
      10 (5 : Int) = Except.ok (3 : Int) :=
  pca_c7_observed_pcs.1 5 3 10 (by norm_num)

/-! ## Combined embeddings -/

open kanaval in
/-- C8: given the results group opens, the combined embeddings results
phase succeeds exactly when either at most one modality is declared, or
the combined float matrix of shape [num_cells, total_dims] is present;
so with a single modality its absence is accepted and with two or more
modalities its absence is an error. -/
theorem combine_embeddings_c8_combined_iff (h rh : Node) (nc : Int)
    (mods : List String) (td : Int)
    (hr : check_and_open_group h "results" = Except.ok rh) :
    combine_embeddings.validate_results h nc mods td = Except.ok () ↔
      (1 < mods.length →
        ∃ nd, check_and_open_dataset_shape rh "combined" H5Type.Float
          [nc.toNat, td.toNat] = Except.ok nd) := by
  rw [combine_embeddings.validate_results]
  constructor
  · intro hok
    rw [exceptBind_ok] at hok
    obtain ⟨rh2, hrh2, hok⟩ := hok
    rw [hr] at hrh2
    obtain rfl : rh2 = rh := (Except.ok.inj hrh2).symm
    intro hlen
    rw [if_pos hlen] at hok
    rw [exceptBind_ok] at hok
    obtain ⟨nd, hnd, -⟩ := hok
    exact ⟨nd, hnd⟩
  · intro himp
    rw [exceptBind_ok]
    refine ⟨rh, hr, ?_⟩
    by_cases hlen : mods.length > 1
    · rw [if_pos hlen]
      obtain ⟨nd, hnd⟩ := himp hlen
      rw [exceptBind_ok]
      exact ⟨nd, hnd, rfl⟩
    · rw [if_neg hlen]; rfl

open kanaval in
/-- C8 witness: with a single declared modality an empty results group is
accepted even though no combined dataset exists. -/
theorem combine_embeddings_c8_combined_iff_witness :
    combine_embeddings.validate_results ceRes1 4 ["RNA"] 7 = Except.ok () :=
  (combine_embeddings_c8_combined_iff ceRes1 (Node.group []) 4 ["RNA"] 7 rfl).mpr
    (fun hlen => absurd hlen (by norm_num))

open kanaval in
/-- C10: for every version below 2000000 the combined embeddings
validator succeeds immediately, for every handle (even a non-group node),
cell count, modality list and dimension total. -/
theorem combine_embeddings_c10_skip_before_v2 (h : Node) (nc : Int)
    (mods : List String) (td : Int) (v : Int) (hv : v < 2000000) :
    combine_embeddings.validate h nc mods td v = Except.ok () := by
  rw [combine_embeddings.validate, if_pos hv]
  rfl

open kanaval in
/-- C10 witness: even a malformed container (an integer scalar in place
of the root group) passes the combined embeddings stage at version
1999999. -/
theorem combine_embeddings_c10_skip_before_v2_witness :
    combine_embeddings.validate (Node.intScalar 7) 0 [] 0 1999999 = Except.ok () :=
  combine_embeddings_c10_skip_before_v2 (Node.intScalar 7) 0 [] 0 1999999 (by norm_num)

/-! ## Custom selections -/

theorem check_selection_indices_ok_iff (nm : String) (nc : Int) (l : List Int) :
    kanaval.custom_selections.check_selection_indices nm nc l = Except.ok () ↔
      ∀ i ∈ l, 0 ≤ i ∧ i < nc := by
  induction l with
  | nil => simp [kanaval.custom_selections.check_selection_indices]
  | cons i is ih =>
    rw [kanaval.custom_selections.check_selection_indices]
    by_cases h1 : i < 0 ∨ i ≥ nc
    · rw [if_pos h1]
      constructor
      · intro h; exact absurd h (by simp)
      · intro hall
        have := hall i (List.mem_cons_self i is)
        omega
    · rw [if_neg h1, ih]
      constructor
      · intro hall q hq
        rcases List.mem_cons.mp hq with rfl | hq2
        · omega
        · exact hall q hq2
      · intro hall q hq
        exact hall q (List.mem_cons_of_mem i hq)

theorem sel_loop_ok_iff (sh : kanaval.Node) (nc : Int) (names : List String) :
    kanaval.custom_selections.sel_loop sh nc names = Except.ok () ↔
      ∀ nm ∈ names, ∃ vs, kanaval.load_integer_vector sh nm = Except.ok vs ∧
        ∀ i ∈ vs, 0 ≤ i ∧ i < nc := by
  induction names with
  | nil => simp [kanaval.custom_selections.sel_loop]
  | cons nm rest ih =>
    rw [kanaval.custom_selections.sel_loop]
    constructor
    · intro hok
      rw [exceptBind_ok] at hok
      obtain ⟨vs, hvs, hok⟩ := hok
      rw [exceptBind_ok] at hok
      obtain ⟨u, hchk, hrest⟩ := hok
      intro q hq
      rcases List.mem_cons.mp hq with rfl | hq2
      · refine ⟨vs, hvs, (check_selection_indices_ok_iff q nc vs).mp ?_⟩
        cases u
        exact hchk
      · exact (ih.mp hrest) q hq2
    · intro hall
      obtain ⟨vs, hvs, hrange⟩ := hall nm (List.mem_cons_self nm rest)
      rw [exceptBind_ok]
      refine ⟨vs, hvs, ?_⟩
      rw [exceptBind_ok]
      exact ⟨(), (check_selection_indices_ok_iff nm nc vs).mpr hrange,
        ih.mpr (fun q hq => hall q (List.mem_cons_of_mem nm hq))⟩

open kanaval in
/-- C9: the custom selections parameters phase succeeds with output l
exactly when the parameters and selections groups open, l is the list of
selection names in child-enumeration order, and every named selection
loads as an integer vector whose every index lies in [0, num_cells); in
particular any negative or too-large index makes it fail (with the error
message naming the selection, as check_selection_indices shows). -/
theorem custom_selections_c9_parameters_iff (h : Node) (nc : Int) (l : List String) :
    custom_selections.validate_parameters h nc = Except.ok l ↔
      ∃ ph sh, check_and_open_group h "parameters" = Except.ok ph ∧
        check_and_open_group ph "selections" = Except.ok sh ∧
        l = sh.childNames ∧
        ∀ nm ∈ sh.childNames, ∃ vs, load_integer_vector sh nm = Except.ok vs ∧
          ∀ i ∈ vs, 0 ≤ i ∧ i < nc := by
  rw [custom_selections.validate_parameters]
  constructor
  · intro hok
    rw [exceptBind_ok] at hok
    obtain ⟨ph, hph, hok⟩ := hok
    rw [exceptBind_ok] at hok
    obtain ⟨sh, hsh, hok⟩ := hok
    rw [exceptBind_ok] at hok
    obtain ⟨u, hloop, hpure⟩ := hok
    simp only [pure, Except.pure, Except.ok.injEq] at hpure
    refine ⟨ph, sh, hph, hsh, hpure.symm, (sel_loop_ok_iff sh nc _).mp ?_⟩
    cases u
    exact hloop
  · rintro ⟨ph, sh, hph, hsh, rfl, hall⟩
    rw [exceptBind_ok]
    refine ⟨ph, hph, ?_⟩
    rw [exceptBind_ok]
    refine ⟨sh, hsh, ?_⟩
    rw [exceptBind_ok]
    exact ⟨(), (sel_loop_ok_iff sh nc _).mpr hall, rfl⟩

open kanaval in
/-- C9 witness: the characterization applied to a concrete selections
region with one selection holding the in-range indices [0, 2] against a
cell count of 3. -/
theorem custom_selections_c9_parameters_iff_witness :
    custom_selections.validate_parameters c9sel 3 = Except.ok ["s1"] :=
  (custom_selections_c9_parameters_iff c9sel 3 ["s1"]).mpr (by
    refine ⟨Node.group [("selections", Node.group [("s1", Node.intVec [0, 2])])],
      Node.group [("s1", Node.intVec [0, 2])], rfl, rfl, rfl, ?_⟩
    intro nm hnm
    have hs1 : nm = "s1" := by simpa [Node.childNames] using hnm
    subst hs1
    exact ⟨[0, 2], rfl, by decide⟩)
